import Mathlib

/-!
Shallow embedding of the MATS workflow controller (`src/src/App.tsx`).

The component owns five pieces of state (`file`, `dialogOpen`,
`selectedOptions`, `step`, `progress`) plus the timer machinery created by
the `useEffect` hook that watches `step`: a recurring interval while
`step = 'processing'` and a one-shot timeout scheduled at the tick where
progress first reaches 100.  We model the timers with two booleans:
`intervalActive` (a live `setInterval` exists) and `timeoutPending` (a
`setTimeout(() => setStep('summary'), 650)` has been scheduled and has not
fired yet).  React re-runs the effect exactly when `step` changes; the
effect cleanup clears the interval (and only the interval — the timeout id
is never stored, so it is never cleared).  `setStep` below models a state
update of `step` followed by that cleanup/effect cycle.

Random increments (`Math.random() * 18`) are modelled by passing the
increment as an explicit rational argument to `tick`.
-/

namespace MATS

/-- Enumeration of the workflow phases, from `type WorkflowStep` in the source. -/
inductive WorkflowStep where
  | idle
  | processing
  | summary
deriving DecidableEq, Repr

/-- State of the `App` component: the five `useState` cells plus the two
timer flags described in the file header. -/
structure AppState where
  file : Option String
  dialogOpen : Bool
  selectedOptions : List String
  step : WorkflowStep
  progress : ℚ
  intervalActive : Bool
  timeoutPending : Bool
deriving DecidableEq, Repr

/-- Initial state: `useState(null)`, `useState(false)`, `useState(['mobsf'])`,
`useState('idle')`, `useState(0)`; no timers live on mount. -/
def initState : AppState :=
  { file := none
    dialogOpen := false
    selectedOptions := ["mobsf"]
    step := WorkflowStep.idle
    progress := 0
    intervalActive := false
    timeoutPending := false }

/-- Effect body of the `useEffect` at lines 115-129: the cleanup of the
previous run clears the interval; then, if `step = 'processing'`, progress
is reset to 0 and a fresh interval starts.  The pending timeout is
untouched — the source never stores or clears the `setTimeout` id. -/
def runEffect (s : AppState) : AppState :=
  if s.step = WorkflowStep.processing then
    { s with progress := 0, intervalActive := true }
  else { s with intervalActive := false }

/-- Model of `setStep`: React re-runs the effect (cleanup included) exactly
when the value of `step` changes; a write of the current value is a no-op. -/
def setStep (s : AppState) (st : WorkflowStep) : AppState :=
  if s.step = st then s else runEffect { s with step := st }

/-- Line 113: `const analysisReady = Boolean(file && selectedOptions.length)`. -/
def analysisReady (s : AppState) : Bool :=
  s.file.isSome && !s.selectedOptions.isEmpty

/-- Lines 133-138 (`handleFileChange`): the picker yields zero or one file;
a present file replaces `file`, an absent one changes nothing. -/
def handleFileChange (nextFile : Option String) (s : AppState) : AppState :=
  match nextFile with
  | some f => { s with file := some f }
  | none => s

/-- Lines 140-147 (`toggleOption`): the required id `'mobsf'` is a no-op;
otherwise the id is filtered out when present, appended when absent. -/
def toggleOption (optionId : String) (s : AppState) : AppState :=
  if optionId = "mobsf" then s
  else
    { s with selectedOptions :=
        if optionId ∈ s.selectedOptions then
          s.selectedOptions.filter (fun x => x ≠ optionId)
        else
          s.selectedOptions ++ [optionId] }

/-- Lines 149-153 (`startAnalysis`): guarded by `analysisReady`; closes the
dialog and moves `step` to `'processing'` (triggering the effect). -/
def startAnalysis (s : AppState) : AppState :=
  if analysisReady s then
    setStep { s with dialogOpen := false } WorkflowStep.processing
  else s

/-- Lines 155-158 (`resetWorkflow`): `setProgress(0)` then `setStep('idle')`. -/
def resetWorkflow (s : AppState) : AppState :=
  setStep { s with progress := 0 } WorkflowStep.idle

/-- Lines 118-127, one firing of the interval callback with random increment
`r` (in the source `r = Math.random() * 18`): progress becomes
`Math.min(100, prev + r)`; when it reaches 100 the interval is cleared and
the 650ms summary timeout is scheduled.  A cleared interval fires no ticks. -/
def tick (s : AppState) (r : ℚ) : AppState :=
  if s.intervalActive then
    let next := min 100 (s.progress + r)
    if 100 ≤ next then
      { s with progress := next, intervalActive := false, timeoutPending := true }
    else
      { s with progress := next }
  else s

/-- Firing of the pending `setTimeout(() => setStep('summary'), 650)`
scheduled at line 123; a timeout that was never scheduled does nothing. -/
def timeoutFire (s : AppState) : AppState :=
  if s.timeoutPending then
    setStep { s with timeoutPending := false } WorkflowStep.summary
  else s

/-- Shape of one entry of `summaryTemplate.vulnerabilities`. -/
structure Vulnerability where
  category : String
  name : String
  severity : String
  scanner : String
deriving DecidableEq, Repr

/-- Shape of one entry of `summaryTemplate.remediation`. -/
structure RemediationItem where
  title : String
  action : String
deriving DecidableEq, Repr

/-- Shape of `summaryTemplate.metrics`; the literal `7.4` is modelled as the
rational `37/5`. -/
structure SummaryMetrics where
  duration : String
  severityScore : ℚ
  coverage : String
  riskLevel : String
deriving DecidableEq, Repr

/-- Shape of the report record built at lines 57-104. -/
structure ReportSummary where
  generatedAt : String
  keyFindings : List String
  vulnerabilities : List Vulnerability
  remediation : List RemediationItem
  metrics : SummaryMetrics
deriving DecidableEq, Repr

/-- Lines 57-104: the module-level constant `summaryTemplate`. -/
def summaryTemplate : ReportSummary :=
  { generatedAt := "October 21, 2025 · 10:45 AM"
    keyFindings :=
      [ "Improper thread synchronization identified in the payment service."
      , "Sensitive analytics payload exposed via unsecured WebSocket."
      , "Excessive permissions in manifest allow privilege escalation." ]
    vulnerabilities :=
      [ { category := "Race Condition"
          name := "Inconsistent balance checks in payment module"
          severity := "critical"
          scanner := "MobSF" }
      , { category := "Improper Thread Synchronization"
          name := "Analytics service spawns unbounded worker threads"
          severity := "high"
          scanner := "Frida" }
      , { category := "Runtime Exploit Surface"
          name := "Broadcast receiver exported without auth"
          severity := "medium"
          scanner := "Drozer" } ]
    remediation :=
      [ { title := "Race Condition Mitigation"
          action := "Introduce optimistic locking combined with server-side verification before commits." }
      , { title := "Secure Communications"
          action := "Route analytics payloads through mTLS tunnel and rotate certificates quarterly." }
      , { title := "Hardening Exported Components"
          action := "Enforce signature-level permissions for exposed receivers and services." } ]
    metrics :=
      { duration := "08m 12s"
        severityScore := 37 / 5
        coverage := "92%"
        riskLevel := "High" } }

/-- Line 131: `const summaryData = useMemo(() => summaryTemplate, [])` — the
value exposed to the rendering layer does not read any component state. -/
def summaryData (_ : AppState) : ReportSummary := summaryTemplate

/-! Frame lemmas: which state cells each primitive leaves untouched. -/

theorem runEffect_file (s : AppState) : (runEffect s).file = s.file := by
  unfold runEffect; split <;> rfl

theorem runEffect_selectedOptions (s : AppState) :
    (runEffect s).selectedOptions = s.selectedOptions := by
  unfold runEffect; split <;> rfl

theorem runEffect_dialogOpen (s : AppState) :
    (runEffect s).dialogOpen = s.dialogOpen := by
  unfold runEffect; split <;> rfl

theorem runEffect_step (s : AppState) : (runEffect s).step = s.step := by
  unfold runEffect; split <;> rfl

theorem runEffect_timeoutPending (s : AppState) :
    (runEffect s).timeoutPending = s.timeoutPending := by
  unfold runEffect; split <;> rfl

theorem setStep_file (s : AppState) (st : WorkflowStep) :
    (setStep s st).file = s.file := by
  unfold setStep; split
  · rfl
  · rw [runEffect_file]

theorem setStep_selectedOptions (s : AppState) (st : WorkflowStep) :
    (setStep s st).selectedOptions = s.selectedOptions := by
  unfold setStep; split
  · rfl
  · rw [runEffect_selectedOptions]

theorem setStep_dialogOpen (s : AppState) (st : WorkflowStep) :
    (setStep s st).dialogOpen = s.dialogOpen := by
  unfold setStep; split
  · rfl
  · rw [runEffect_dialogOpen]

theorem setStep_step (s : AppState) (st : WorkflowStep) :
    (setStep s st).step = st := by
  unfold setStep; split
  · assumption
  · rw [runEffect_step]

theorem setStep_timeoutPending (s : AppState) (st : WorkflowStep) :
    (setStep s st).timeoutPending = s.timeoutPending := by
  unfold setStep; split
  · rfl
  · rw [runEffect_timeoutPending]

theorem startAnalysis_selectedOptions (s : AppState) :
    (startAnalysis s).selectedOptions = s.selectedOptions := by
  unfold startAnalysis; split
  · rw [setStep_selectedOptions]
  · rfl

theorem resetWorkflow_selectedOptions (s : AppState) :
    (resetWorkflow s).selectedOptions = s.selectedOptions := by
  unfold resetWorkflow; rw [setStep_selectedOptions]

/-- Unfolding of `toggleOption` on a non-required id, stated at the list level. -/
theorem toggleOption_selectedOptions (i : String) (s : AppState) (hi : i ≠ "mobsf") :
    (toggleOption i s).selectedOptions =
      if i ∈ s.selectedOptions then s.selectedOptions.filter (fun x => x ≠ i)
      else s.selectedOptions ++ [i] := by
  unfold toggleOption
  rw [if_neg hi]

/-- Zeta-reduced form of `tick`, convenient for case splits. -/
theorem tick_eq (s : AppState) (r : ℚ) :
    tick s r =
      if s.intervalActive then
        if 100 ≤ min 100 (s.progress + r) then
          { s with progress := min 100 (s.progress + r), intervalActive := false,
                   timeoutPending := true }
        else { s with progress := min 100 (s.progress + r) }
      else s := rfl

/-- Concrete run used in witnesses: pick `app.apk`, then start the analysis. -/
def procState : AppState := startAnalysis (handleFileChange (some "app.apk") initState)

/-- Concrete run continuing `procState` with six ticks of increment 17
(each a legal value of `Math.random() * 18`): progress passes
17, 34, 51, 68, 85 and then clamps to 100, at which point the interval is
cleared and the 650ms summary timeout is scheduled. -/
def pendingState : AppState :=
  tick (tick (tick (tick (tick (tick procState 17) 17) 17) 17) 17) 17

/-- Membership of the required id is preserved by any single toggle. -/
theorem toggleOption_mem_mobsf (i : String) (s : AppState)
    (h : "mobsf" ∈ s.selectedOptions) :
    "mobsf" ∈ (toggleOption i s).selectedOptions := by
  by_cases hi : i = "mobsf"
  · simpa [toggleOption, hi] using h
  · rw [toggleOption_selectedOptions i s hi]
    split
    · rw [List.mem_filter]
      exact ⟨h, decide_eq_true (Ne.symm hi)⟩
    · exact List.mem_append_left _ h

/-- C2: the required scanner id `mobsf` is always a member of the selected
scanner set: it is in the initial state, toggling it is a no-op, and any
sequence of toggles starting from a state containing it keeps it. -/
theorem mobsf_always_selected (s : AppState) (ids : List String)
    (h : "mobsf" ∈ s.selectedOptions) :
    "mobsf" ∈ initState.selectedOptions ∧
    toggleOption "mobsf" s = s ∧
    "mobsf" ∈ (ids.foldl (fun t i => toggleOption i t) s).selectedOptions := by
  refine ⟨by simp [initState], by simp [toggleOption], ?_⟩
  induction ids generalizing s with
  | nil => simpa using h
  | cons i rest ih => exact ih _ (toggleOption_mem_mobsf i s h)

/-- Witness for C2 at the initial state and a concrete toggle sequence. -/
theorem mobsf_always_selected_witness :
    "mobsf" ∈ initState.selectedOptions ∧
    ("mobsf" ∈ initState.selectedOptions ∧
      toggleOption "mobsf" initState = initState ∧
      "mobsf" ∈ ((["frida", "mobsf", "frida"] : List String).foldl
          (fun t i => toggleOption i t) initState).selectedOptions) :=
  ⟨by decide, mobsf_always_selected initState ["frida", "mobsf", "frida"] (by decide)⟩

/-- C3: `startAnalysis` is a no-op — the whole state is unchanged — whenever
the file is absent or the scanner set is empty. -/
theorem startAnalysis_precondition_noop (s : AppState)
    (h : s.file = none ∨ s.selectedOptions = []) :
    startAnalysis s = s := by
  have hready : analysisReady s = false := by
    rcases h with h | h <;> simp [analysisReady, h]
  unfold startAnalysis
  rw [hready]
  simp

/-- Witness for C3 at the initial state, where no file is selected. -/
theorem startAnalysis_precondition_noop_witness :
    (initState.file = none ∨ initState.selectedOptions = []) ∧
    startAnalysis initState = initState :=
  ⟨Or.inl rfl, startAnalysis_precondition_noop initState (Or.inl rfl)⟩

/-- C5: when a file is selected and the scanner set is non-empty,
`startAnalysis` closes the dialog and moves `Idle` or `Summary` to
`Processing`, and progress is reset to 0 on entry. -/
theorem startAnalysis_enters_processing (s : AppState)
    (hf : s.file.isSome = true) (hsc : s.selectedOptions ≠ [])
    (hstep : s.step = WorkflowStep.idle ∨ s.step = WorkflowStep.summary) :
    (startAnalysis s).dialogOpen = false ∧
    (startAnalysis s).step = WorkflowStep.processing ∧
    (startAnalysis s).progress = 0 := by
  have hready : analysisReady s = true := by
    simp [analysisReady, hf, hsc]
  have hne : ¬ s.step = WorkflowStep.processing := by
    rcases hstep with h | h <;> simp [h]
  unfold startAnalysis
  rw [hready]
  refine ⟨?_, ?_, ?_⟩
  · simp only [if_true]
    rw [setStep_dialogOpen]
  · simp only [if_true]
    rw [setStep_step]
  · simp only [if_true]
    unfold setStep
    rw [if_neg hne]
    unfold runEffect
    rw [if_pos rfl]

/-- Witness for C5 right after a file has been picked in the initial state. -/
theorem startAnalysis_enters_processing_witness :
    (handleFileChange (some "app.apk") initState).file.isSome = true ∧
    (handleFileChange (some "app.apk") initState).selectedOptions ≠ [] ∧
    ((handleFileChange (some "app.apk") initState).step = WorkflowStep.idle ∨
      (handleFileChange (some "app.apk") initState).step = WorkflowStep.summary) ∧
    ((startAnalysis (handleFileChange (some "app.apk") initState)).dialogOpen = false ∧
     (startAnalysis (handleFileChange (some "app.apk") initState)).step =
        WorkflowStep.processing ∧
     (startAnalysis (handleFileChange (some "app.apk") initState)).progress = 0) :=
  ⟨rfl, by decide, Or.inl rfl,
    startAnalysis_enters_processing (handleFileChange (some "app.apk") initState)
      rfl (by decide) (Or.inl rfl)⟩

/-- C6: `resetWorkflow`, from any state, sets `progress = 0` and
`step = idle`, and leaves the file, the scanner set and the dialog flag
unchanged. -/
theorem resetWorkflow_spec (s : AppState) :
    (resetWorkflow s).progress = 0 ∧
    (resetWorkflow s).step = WorkflowStep.idle ∧
    (resetWorkflow s).file = s.file ∧
    (resetWorkflow s).selectedOptions = s.selectedOptions ∧
    (resetWorkflow s).dialogOpen = s.dialogOpen := by
  refine ⟨?_, ?_, ?_, ?_, ?_⟩
  · unfold resetWorkflow setStep
    split
    · rfl
    · unfold runEffect
      split <;> rfl
  · unfold resetWorkflow
    rw [setStep_step]
  · unfold resetWorkflow
    rw [setStep_file]
  · exact resetWorkflow_selectedOptions s
  · unfold resetWorkflow
    rw [setStep_dialogOpen]

/-- C7: the report exposed while in the summary phase is the constant
`summaryTemplate`, independent of the selected file and scanners. -/
theorem summaryData_constant (s₁ s₂ : AppState)
    (h₁ : s₁.step = WorkflowStep.summary) (h₂ : s₂.step = WorkflowStep.summary) :
    summaryData s₁ = summaryTemplate ∧ summaryData s₁ = summaryData s₂ :=
  ⟨rfl, rfl⟩

/-- Witness for C7 on two summary states with different files and scanners. -/
theorem summaryData_constant_witness :
    ({ initState with step := WorkflowStep.summary } : AppState).step =
        WorkflowStep.summary ∧
    ({ handleFileChange (some "x.apk") (toggleOption "frida" initState) with
        step := WorkflowStep.summary } : AppState).step = WorkflowStep.summary ∧
    (summaryData { initState with step := WorkflowStep.summary } = summaryTemplate ∧
     summaryData { initState with step := WorkflowStep.summary } =
       summaryData { handleFileChange (some "x.apk") (toggleOption "frida" initState) with
          step := WorkflowStep.summary }) :=
  ⟨rfl, rfl,
    summaryData_constant
      { initState with step := WorkflowStep.summary }
      { handleFileChange (some "x.apk") (toggleOption "frida" initState) with
          step := WorkflowStep.summary } rfl rfl⟩

/-- C8: a present file replaces `file` and changes nothing else, in
particular not the phase; an absent file (picker cancelled) changes
nothing at all. -/
theorem handleFileChange_spec (s : AppState) (f : String) :
    handleFileChange (some f) s = { s with file := some f } ∧
    handleFileChange none s = s :=
  ⟨rfl, rfl⟩

/-- C9: for a non-required id occurring at most once, toggling it twice
gives back the same set of ids (same membership). -/
theorem toggleOption_double_toggle (s : AppState) (i x : String)
    (hi : i ≠ "mobsf") (hc : s.selectedOptions.count i ≤ 1) :
    (x ∈ (toggleOption i (toggleOption i s)).selectedOptions ↔
      x ∈ s.selectedOptions) := by
  clear hc
  rw [toggleOption_selectedOptions i _ hi, toggleOption_selectedOptions i s hi]
  by_cases hmem : i ∈ s.selectedOptions
  · rw [if_pos hmem]
    have hnotin : i ∉ s.selectedOptions.filter (fun x => x ≠ i) := by
      simp [List.mem_filter]
    rw [if_neg hnotin]
    simp only [List.mem_append, List.mem_filter, List.mem_singleton]
    constructor
    · rintro (⟨hxl, _⟩ | hx)
      · exact hxl
      · exact hx ▸ hmem
    · intro hxl
      by_cases hx : x = i
      · exact Or.inr hx
      · exact Or.inl ⟨hxl, decide_eq_true hx⟩
  · rw [if_neg hmem]
    have hin : i ∈ s.selectedOptions ++ [i] :=
      List.mem_append_right _ (List.mem_singleton_self i)
    rw [if_pos hin]
    rw [List.filter_append]
    simp only [List.mem_append, List.mem_filter]
    constructor
    · rintro (⟨hxl, _⟩ | hx)
      · exact hxl
      · simp at hx
    · intro hxl
      have hx : x ≠ i := fun hEq => hmem (hEq ▸ hxl)
      exact Or.inl ⟨hxl, decide_eq_true hx⟩

/-- Witness for C9: double-toggling `frida` from the state where it was
just added restores the original membership. -/
theorem toggleOption_double_toggle_witness :
    "frida" ≠ "mobsf" ∧
    (toggleOption "frida" initState).selectedOptions.count "frida" ≤ 1 ∧
    ("frida" ∈ (toggleOption "frida"
        (toggleOption "frida" (toggleOption "frida" initState))).selectedOptions ↔
      "frida" ∈ (toggleOption "frida" initState).selectedOptions) :=
  ⟨by decide, by decide,
    toggleOption_double_toggle (toggleOption "frida" initState) "frida" "frida"
      (by decide) (by decide)⟩

/-- C10: the selected scanner list never holds a duplicate id: the initial
list is duplicate-free and every operation preserves that. -/
theorem selectedOptions_nodup (s : AppState) (i : String) (f : Option String)
    (h : s.selectedOptions.Nodup) :
    initState.selectedOptions.Nodup ∧
    (handleFileChange f s).selectedOptions.Nodup ∧
    (toggleOption i s).selectedOptions.Nodup ∧
    (startAnalysis s).selectedOptions.Nodup ∧
    (resetWorkflow s).selectedOptions.Nodup := by
  refine ⟨by decide, ?_, ?_, ?_, ?_⟩
  · cases f <;> exact h
  · by_cases hi : i = "mobsf"
    · simpa [toggleOption, hi] using h
    · rw [toggleOption_selectedOptions i s hi]
      split
      · exact h.filter _
      · rename_i hmem
        rw [List.nodup_append]
        exact ⟨h, List.nodup_singleton i, by simpa using hmem⟩
  · rw [startAnalysis_selectedOptions]
    exact h
  · rw [resetWorkflow_selectedOptions]
    exact h

/-- Witness for C10 at the initial state. -/
theorem selectedOptions_nodup_witness :
    initState.selectedOptions.Nodup ∧
    (initState.selectedOptions.Nodup ∧
     (handleFileChange none initState).selectedOptions.Nodup ∧
     (toggleOption "frida" initState).selectedOptions.Nodup ∧
     (startAnalysis initState).selectedOptions.Nodup ∧
     (resetWorkflow initState).selectedOptions.Nodup) :=
  ⟨by decide, selectedOptions_nodup initState "frida" none (by decide)⟩

/-- C4: a tick with increment `0 ≤ r ≤ 18` keeps progress non-decreasing
and inside `[0,100]`, advances it by at most 18, and whenever the tick is
the one that schedules the summary timeout, progress is exactly 100. -/
theorem tick_progress_bounds (s : AppState) (r : ℚ)
    (hr0 : 0 ≤ r) (hr18 : r ≤ 18)
    (hp0 : 0 ≤ s.progress) (hp1 : s.progress ≤ 100) :
    s.progress ≤ (tick s r).progress ∧
    0 ≤ (tick s r).progress ∧
    (tick s r).progress ≤ 100 ∧
    (tick s r).progress ≤ s.progress + 18 ∧
    (s.timeoutPending = false → (tick s r).timeoutPending = true →
      (tick s r).progress = 100) := by
  rw [tick_eq]
  by_cases ha : s.intervalActive = true
  · rw [if_pos ha]
    by_cases h100 : (100:ℚ) ≤ min 100 (s.progress + r)
    · rw [if_pos h100]
      refine ⟨?_, ?_, ?_, ?_, ?_⟩
      · exact le_min hp1 (le_add_of_nonneg_right hr0)
      · exact le_min (by norm_num) (add_nonneg hp0 hr0)
      · exact min_le_left _ _
      · exact le_trans (min_le_right _ _) (by linarith)
      · intro _ _
        exact le_antisymm (min_le_left _ _) h100
    · rw [if_neg h100]
      refine ⟨?_, ?_, ?_, ?_, ?_⟩
      · exact le_min hp1 (le_add_of_nonneg_right hr0)
      · exact le_min (by norm_num) (add_nonneg hp0 hr0)
      · exact min_le_left _ _
      · exact le_trans (min_le_right _ _) (by linarith)
      · intro h1 h2
        simp only [h1] at h2
        exact Bool.noConfusion h2
  · rw [if_neg ha]
    refine ⟨le_refl _, hp0, hp1, by linarith, ?_⟩
    intro h1 h2
    rw [h1] at h2
    exact Bool.noConfusion h2

/-- Witness for C4: one tick of increment 10 from the freshly started run. -/
theorem tick_progress_bounds_witness :
    (0:ℚ) ≤ 10 ∧ (10:ℚ) ≤ 18 ∧
    0 ≤ procState.progress ∧ procState.progress ≤ 100 ∧
    (procState.progress ≤ (tick procState 10).progress ∧
     0 ≤ (tick procState 10).progress ∧
     (tick procState 10).progress ≤ 100 ∧
     (tick procState 10).progress ≤ procState.progress + 18 ∧
     (procState.timeoutPending = false → (tick procState 10).timeoutPending = true →
       (tick procState 10).progress = 100)) :=
  ⟨by norm_num, by norm_num, by decide, by decide,
    tick_progress_bounds procState 10 (by norm_num) (by norm_num)
      (by decide) (by decide)⟩

/-- Evaluation rule for a tick that does not yet reach 100. -/
theorem tick_advance (s : AppState) (r q : ℚ) (ha : s.intervalActive = true)
    (hq : s.progress + r = q) (h : q < 100) :
    tick s r = { s with progress := q } := by
  have hmin : min 100 (s.progress + r) = q := by
    rw [hq]
    exact min_eq_right (le_of_lt h)
  rw [tick_eq, if_pos ha, hmin, if_neg (not_le.mpr h)]

/-- Evaluation rule for the tick that clamps progress to 100: the interval
is cleared and the summary timeout becomes pending. -/
theorem tick_finish (s : AppState) (r : ℚ) (ha : s.intervalActive = true)
    (h : 100 ≤ s.progress + r) :
    tick s r =
      { s with progress := 100, intervalActive := false, timeoutPending := true } := by
  have hmin : min 100 (s.progress + r) = 100 := min_eq_left h
  rw [tick_eq, if_pos ha, hmin, if_pos (le_refl (100:ℚ))]

/-- C1 (failing behavior, shown on a concrete run): after progress reaches
100 the summary timeout is pending; `resetWorkflow` moves the state back to
`idle` with progress 0, but the pending timeout survives — its id is never
stored, so the effect cleanup cannot clear it — and when it fires the phase
becomes `summary` even though a reset happened during `processing`. -/
theorem reset_does_not_cancel_pending_timeout :
    pendingState.step = WorkflowStep.processing ∧
    pendingState.progress = 100 ∧
    pendingState.timeoutPending = true ∧
    (resetWorkflow pendingState).step = WorkflowStep.idle ∧
    (resetWorkflow pendingState).progress = 0 ∧
    (resetWorkflow pendingState).timeoutPending = true ∧
    (timeoutFire (resetWorkflow pendingState)).step = WorkflowStep.summary := by
  have e1 : tick procState 17 = { procState with progress := 17 } :=
    tick_advance procState 17 17 rfl (by show (0:ℚ) + 17 = 17; norm_num) (by norm_num)
  have e2 : tick (tick procState 17) 17 = { procState with progress := 34 } := by
    rw [e1]
    exact tick_advance _ 17 34 rfl (by show (17:ℚ) + 17 = 34; norm_num) (by norm_num)
  have e3 : tick (tick (tick procState 17) 17) 17 =
      { procState with progress := 51 } := by
    rw [e2]
    exact tick_advance _ 17 51 rfl (by show (34:ℚ) + 17 = 51; norm_num) (by norm_num)
  have e4 : tick (tick (tick (tick procState 17) 17) 17) 17 =
      { procState with progress := 68 } := by
    rw [e3]
    exact tick_advance _ 17 68 rfl (by show (51:ℚ) + 17 = 68; norm_num) (by norm_num)
  have e5 : tick (tick (tick (tick (tick procState 17) 17) 17) 17) 17 =
      { procState with progress := 85 } := by
    rw [e4]
    exact tick_advance _ 17 85 rfl (by show (68:ℚ) + 17 = 85; norm_num) (by norm_num)
  have e6 : pendingState =
      { procState with
          progress := 100
          intervalActive := false
          timeoutPending := true } := by
    unfold pendingState
    rw [e5]
    exact tick_finish _ 17 rfl (by show (100:ℚ) ≤ 85 + 17; norm_num)
  rw [e6]
  exact ⟨rfl, rfl, rfl, rfl, rfl, rfl, rfl⟩

end MATS
